import Mathlib

/-!
Verification of the SneakerDropBot ingestion and change-detection engine.

This file gives a shallow embedding, in Lean 4, of the parts of the
repository that the specification's claims are about:

* the change detector and product store
  (`Latest Code/scrapers/scraper_manager.py`,
   `Latest Code/database/connection.py`),
* the per-source circuit breaker and robust request loop
  (`Sneaker Bot/scrapers/enhanced_base_scraper.py`),
* the multi-strategy extraction pipeline with confidence scoring
  (same file),
* the Telegram alert sender's cooldown logic
  (`Sneaker Bot/bot/alert_sender.py`),
* the monitoring engine's alert queue
  (`Latest Code/app/monitoring_engine.py`),
* the scraper health monitor's alert raising
  (`Latest Code/scrapers/scraper_health_monitor.py`).

Timestamps are modelled as integers (seconds), prices as rationals.
Python truthiness of optional string fields is modelled explicitly.
-/

namespace SneakerDropBot

/-! ## Product store and change detector

`SneakerProduct` models the fields of `database/models.py::SneakerProduct`
that the change detector reads.  The MongoDB `products` collection is a
list of documents; a unique index exists on `sku`.
-/

structure SneakerProduct where
  sku : String
  retailer : String
  name : String
  url : String
  price : Option ℚ
  is_in_stock : Bool
  last_checked : Int
deriving Repr, DecidableEq

/-- `DatabaseManager.upsert_product`: `find_one_and_update` on the key
`(sku, retailer)` with `$set` of the whole document and `upsert=True`.
It overwrites the first (in practice, unique) matching document, setting
`last_checked` to the current time, or inserts a fresh document. -/
def upsertProduct (now : Int) (p : SneakerProduct) : List SneakerProduct → List SneakerProduct
  | [] => [{ p with last_checked := now }]
  | r :: rest =>
    if r.sku = p.sku ∧ r.retailer = p.retailer then
      { p with last_checked := now } :: rest
    else
      r :: upsertProduct now p rest

/-- The `find_one` query of `ScraperManager._is_restock`: same `sku` and
`retailer`, with `last_checked` older than 30 minutes. -/
def findRestockPrev (now : Int) (p : SneakerProduct) (store : List SneakerProduct) :
    Option SneakerProduct :=
  store.find? fun r =>
    decide (r.sku = p.sku ∧ r.retailer = p.retailer ∧ r.last_checked < now - 30 * 60)

/-- `ScraperManager._is_restock`: the product is in stock, and the stored
document matching the query was out of stock. -/
def isRestock (now : Int) (p : SneakerProduct) (store : List SneakerProduct) : Bool :=
  if ¬ p.is_in_stock then false
  else
    match findRestockPrev now p store with
    | some prev => ¬ prev.is_in_stock
    | none => false

/-- The `find_one` query of `ScraperManager._is_price_drop`: same key,
a non-null price, and `last_checked` older than 1 hour. -/
def findPriceDropPrev (now : Int) (p : SneakerProduct) (store : List SneakerProduct) :
    Option SneakerProduct :=
  store.find? fun r =>
    decide (r.sku = p.sku ∧ r.retailer = p.retailer ∧ r.price ≠ none ∧
      r.last_checked < now - 3600)

/-- `ScraperManager._is_price_drop`: the new product has a truthy price, a
previous document with a truthy price exists per the query, and
`product.price < previous_price * 0.95` (strict comparison in the source). -/
def isPriceDrop (now : Int) (p : SneakerProduct) (store : List SneakerProduct) : Bool :=
  match p.price with
  | none => false
  | some np =>
    if np = 0 then false
    else
      match findPriceDropPrev now p store with
      | some prev =>
        match prev.price with
        | some pq => if pq = 0 then false else decide (np < pq * (19/20))
        | none => false
      | none => false

/-- The dictionary built by `ScraperManager._calculate_flip_opportunity`. -/
structure FlipData where
  retail_price : ℚ
  avg_resell_price : ℚ
  margin : ℚ
  margin_percentage : ℚ
  sample_size : Nat
deriving Repr, DecidableEq

/-- `ScraperManager._calculate_flip_opportunity`: requires a truthy price and
the product in stock; takes the recent resell prices (the query
`get_resell_data` returns up to 10 most recent samples, with no minimum
sample count); averages them; returns the flip data iff
`margin_percentage >= 25`. -/
def calculateFlipOpportunity (p : SneakerProduct) (resell : List ℚ) : Option FlipData :=
  match p.price with
  | none => none
  | some pr =>
    if pr = 0 ∨ ¬ p.is_in_stock then none
    else if resell = [] then none
    else
      let avg := resell.sum / (resell.length : ℚ)
      let margin := avg - pr
      let mp := margin / pr * 100
      if 25 ≤ mp then some ⟨pr, avg, margin, mp, resell.length⟩ else none

/-! ## Circuit breaker (`EnhancedBaseScraper`) -/

/-- The circuit-breaker fields of `EnhancedBaseScraper`. -/
structure CBState where
  failure_count : Nat
  last_failure_time : Option Int
deriving Repr, DecidableEq

/-- `self.circuit_breaker_threshold = 5`. -/
def circuit_breaker_threshold : Nat := 5

/-- `self.circuit_breaker_timeout = 300` (seconds). -/
def circuit_breaker_timeout : Int := 300

/-- `EnhancedBaseScraper.is_circuit_breaker_open`. -/
def isCircuitBreakerOpen (now : Int) (s : CBState) : Bool :=
  if s.failure_count < circuit_breaker_threshold then false
  else
    match s.last_failure_time with
    | some t => decide (now - t < circuit_breaker_timeout)
    | none => true

/-- `EnhancedBaseScraper.record_success` (the circuit-breaker fields). -/
def recordSuccess (_s : CBState) : CBState :=
  { failure_count := 0, last_failure_time := none }

/-- `EnhancedBaseScraper.record_failure` (the circuit-breaker fields). -/
def recordFailure (now : Int) (s : CBState) : CBState :=
  { failure_count := s.failure_count + 1, last_failure_time := some now }

/-- One outcome of a single `session.get` attempt. -/
inductive FetchOutcome where
  | status (code : Nat)
  | transportError
deriving Repr, DecidableEq

/-- An attempt succeeds exactly when the HTTP status is 200. -/
def isSuccessOutcome : FetchOutcome → Bool
  | .status c => c == 200
  | .transportError => false

/-- The retry loop body of `_make_robust_request`: attempts are made in
order until the first 200 response; returns whether a 200 response was
obtained and the number of fetch calls made. -/
def runAttempts : List FetchOutcome → Bool × Nat
  | [] => (false, 0)
  | o :: rest =>
    if isSuccessOutcome o then (true, 1)
    else
      let r := runAttempts rest
      (r.1, r.2 + 1)

/-- Result of `_make_robust_request`: whether a response was returned,
the circuit-breaker state afterwards, and how many fetch calls happened. -/
structure RequestResult where
  responded : Bool
  state : CBState
  fetch_calls : Nat
deriving Repr, DecidableEq

/-- `EnhancedBaseScraper._make_robust_request`: short-circuits (returning
`None` with zero fetch calls and unchanged state) when the breaker is
open; otherwise runs the attempts, calling `record_success` on a 200
response and `record_failure` once after the retry cap is exhausted. -/
def makeRobustRequest (now : Int) (attempts : List FetchOutcome) (s : CBState) : RequestResult :=
  if isCircuitBreakerOpen now s then ⟨false, s, 0⟩
  else
    let r := runAttempts attempts
    if r.1 then ⟨true, recordSuccess s, r.2⟩
    else ⟨false, recordFailure now s, r.2⟩

/-! ## Price extraction (`EnhancedBaseScraper._extract_price`)

The Python code first keeps only digits, dots and commas, then resolves
the comma/dot ambiguity, then applies `float(...)` with a regex fallback.
Strings are handled as character lists.
-/

/-- The character class of `re.sub(r'[^\d.,]', '', ...)`. -/
def isPriceChar (c : Char) : Bool := c.isDigit || c == '.' || c == ','

/-- Keep only digits, dots and commas. -/
def cleanPriceChars (s : String) : List Char := s.toList.filter isPriceChar

/-- Given that both a comma and a dot occur, decide whether
`rindex(',') > rindex('.')`, i.e. whether the last separator seen from the
end is a comma. -/
def lastSepIsComma (l : List Char) : Bool :=
  match l.reverse.find? (fun c => c == ',' || c == '.') with
  | some c => c == ','
  | none => false

/-- Length of `price_text.split(',')[-1]`: the characters after the last
comma. -/
def lastSegLen (l : List Char) : Nat :=
  (l.reverse.takeWhile (fun c => c != ',')).length

/-- Digits to a natural number (the characters are assumed decimal digits). -/
def digitsToNat (l : List Char) : Nat :=
  l.foldl (fun a c => a * 10 + (c.toNat - 48)) 0

/-- Python `float(...)` restricted to the unsigned strings that can reach it
here: it succeeds on digit strings with at most one dot and at least one
digit or a fractional/integral part, and fails otherwise. -/
def pyFloat (l : List Char) : Option ℚ :=
  if ¬ (l.all fun c => c.isDigit || c == '.') then none
  else
    match (l.filter (fun c => c == '.')).length with
    | 0 => if l = [] then none else some (digitsToNat l)
    | 1 =>
      let ip := l.takeWhile (fun c => c != '.')
      let fp := (l.dropWhile (fun c => c != '.')).drop 1
      if ip = [] ∧ fp = [] then none
      else some ((digitsToNat ip : ℚ) + (digitsToNat fp : ℚ) / ((10 : ℚ) ^ fp.length))
    | _ => none

/-- First match of the fallback regex `\d+\.?\d*`: a maximal digit run,
an optional dot, then a maximal digit run. -/
def firstNumberMatch : List Char → Option (List Char)
  | [] => none
  | c :: rest =>
    if c.isDigit then
      let ds := (c :: rest).takeWhile Char.isDigit
      let after := (c :: rest).dropWhile Char.isDigit
      match after with
      | '.' :: tail => some (ds ++ '.' :: tail.takeWhile Char.isDigit)
      | _ => some ds
    else firstNumberMatch rest

/-- `EnhancedBaseScraper._extract_price`. -/
def extract_price (s : String) : Option ℚ :=
  if s = "" then none
  else
    let l := cleanPriceChars s
    let processed :=
      if l.contains ',' ∧ l.contains '.' then
        if lastSepIsComma l then
          (l.filter (fun c => c != '.')).map (fun c => if c == ',' then '.' else c)
        else l.filter (fun c => c != ',')
      else if l.contains ',' then
        if lastSegLen l = 2 then l.map (fun c => if c == ',' then '.' else c)
        else l.filter (fun c => c != ',')
      else l
    match pyFloat processed with
    | some q => some q
    | none =>
      match firstNumberMatch processed with
      | some m => pyFloat m
      | none => none

/-! ## Product data validation (`EnhancedBaseScraper._validate_product_data`)

The input is a parsed dict.  The validator observes each field only
through: key presence, Python truthiness, the string content (name,
title, url, important fields) and `_extract_price(str(value))` for the
price.  The price field therefore carries its truthiness together with
its `str(...)` rendering.
-/

/-- The raw price dict entry, observed through truthiness and `str(...)`. -/
structure PriceRaw where
  truthy : Bool
  text : String
deriving Repr, DecidableEq

/-- A parsed product dict, restricted to the keys the validator reads.
`none` means the key is absent. -/
structure ExtractedData where
  name : Option String := none
  title : Option String := none
  price : Option PriceRaw := none
  url : Option String := none
  brand : Option String := none
  model : Option String := none
  sku : Option String := none
  image : Option String := none
deriving Repr, DecidableEq

/-- Python truthiness of an optional string entry. -/
def strTruthy : Option String → Bool
  | none => false
  | some s => s != ""

/-- Python truthiness of the optional price entry. -/
def priceFieldTruthy : Option PriceRaw → Bool
  | none => false
  | some p => p.truthy

/-- `self.required_fields`. -/
def required_fields : List String := ["name", "price", "url"]

/-- `self.important_fields`. -/
def important_fields : List String := ["brand", "model", "sku", "image"]

/-- The `missing_fields` loop: a required key absent or falsy. -/
def missingFields (d : ExtractedData) : List String :=
  (if strTruthy d.name then [] else ["name"]) ++
  (if priceFieldTruthy d.price then [] else ["price"]) ++
  (if strTruthy d.url then [] else ["url"])

/-- `data.get("name") or data.get("title", "")`. -/
def nameForValidation (d : ExtractedData) : String :=
  match d.name with
  | some s => if s != "" then s else d.title.getD ""
  | none => d.title.getD ""

/-- Python `str.strip()` on the character list. -/
def pyStrip (s : String) : List Char :=
  ((s.toList.dropWhile fun c => c.isWhitespace).reverse.dropWhile
    fun c => c.isWhitespace).reverse

/-- `url.startswith(("http://", "https://"))`. -/
def startsWithHttp (u : String) : Bool :=
  "http://".toList.isPrefixOf u.toList || "https://".toList.isPrefixOf u.toList

/-- The `invalid_fields` checks: a present price that does not extract to a
value in `(0, 10000]`; a name (or title) shorter than 3 characters after
stripping, when either key is present; a present url that does not start
with `http://` or `https://`. -/
def invalidFields (d : ExtractedData) : List String :=
  (match d.price with
   | none => []
   | some p =>
     match extract_price p.text with
     | none => ["price"]
     | some q => if q ≤ 0 ∨ 10000 < q then ["price"] else []) ++
  (if d.name ≠ none ∨ d.title ≠ none then
     if (pyStrip (nameForValidation d)).length < 3 then ["name"] else []
   else []) ++
  (match d.url with
   | none => []
   | some u => if startsWithHttp u then [] else ["url"])

/-- `valid_important`: important keys that are present and truthy. -/
def importantCount (d : ExtractedData) : Nat :=
  (if strTruthy d.brand then 1 else 0) + (if strTruthy d.model then 1 else 0) +
  (if strTruthy d.sku then 1 else 0) + (if strTruthy d.image then 1 else 0)

/-- The result record of `_validate_product_data`. -/
structure ProductValidation where
  is_valid : Bool
  missing_fields : List String
  invalid_fields : List String
  confidence_score : ℚ
deriving Repr, DecidableEq

/-- `EnhancedBaseScraper._validate_product_data`: the confidence score is
`max(0, (valid_required * 0.7 + valid_important * 0.3) / 7 - 0.2 * invalid)`
where `valid_required = 3 - len(missing_fields)` and the denominator is
`len(required_fields) + len(important_fields) = 7`. -/
def validateProductData (d : ExtractedData) : ProductValidation :=
  let missing := missingFields d
  let invalid := invalidFields d
  let valid_required : ℚ := (required_fields.length : ℚ) - (missing.length : ℚ)
  let valid_important : ℚ := (importantCount d : ℚ)
  let invalid_penalty : ℚ := (invalid.length : ℚ) * (2/10)
  let total : ℚ := ((required_fields.length + important_fields.length : Nat) : ℚ)
  let score := max 0 ((valid_required * (7/10) + valid_important * (3/10)) / total - invalid_penalty)
  ⟨missing.isEmpty && invalid.isEmpty, missing, invalid, score⟩

/-! ## Parsing strategy chain (`_try_multiple_parsing_methods`)

The HTML/JSON wrangling of each strategy is external input; each strategy
is modelled by its decision layer over the candidate records it found.
-/

/-- `ScrapingMethod`. -/
inductive ScrapingMethod where
  | official_api | json_ld | script_json | html_structured | html_fallback
deriving Repr, DecidableEq

/-- `ScrapingResult`. -/
structure ScrapingResult where
  success : Bool
  method : ScrapingMethod
  data : Option ExtractedData := none
  error : Option String := none
  confidence : ℚ := 0
deriving Repr, DecidableEq

/-- `_try_json_ld_parsing`: the first candidate item whose validation is
fully valid wins; otherwise a non-success result with an error string. -/
def tryJsonLd (items : List ExtractedData) : ScrapingResult :=
  match items.find? (fun d => (validateProductData d).is_valid) with
  | some d => ⟨true, .json_ld, some d, none, (validateProductData d).confidence_score⟩
  | none => ⟨false, .json_ld, none, some "No valid JSON-LD found", 0⟩

/-- `_try_script_json_parsing`: the first extracted candidate whose
confidence score exceeds 0.5 wins; otherwise a non-success result. -/
def tryScriptJson (cands : List ExtractedData) : ScrapingResult :=
  match cands.find? (fun d => decide ((1:ℚ)/2 < (validateProductData d).confidence_score)) with
  | some d => ⟨true, .script_json, some d, none, (validateProductData d).confidence_score⟩
  | none => ⟨false, .script_json, none, some "No valid script JSON found", 0⟩

/-- `_try_structured_html_parsing`: succeeds iff the validation score
exceeds 0.3; its reported confidence is capped by the selector-level
confidence. -/
def tryStructuredHtml (d : ExtractedData) (selectorConfidence : ℚ) : ScrapingResult :=
  let v := validateProductData d
  if (3:ℚ)/10 < v.confidence_score then
    ⟨true, .html_structured, some d, none, min selectorConfidence v.confidence_score⟩
  else ⟨false, .html_structured, none, some "Low confidence", 0⟩

/-- `_try_fallback_html_parsing`: always returns its data, with
`success = (confidence_score > 0.1)` and no error. -/
def tryFallbackHtml (d : ExtractedData) : ScrapingResult :=
  let v := validateProductData d
  ⟨decide ((1:ℚ)/10 < v.confidence_score), .html_fallback, some d, none, v.confidence_score⟩

/-- `_try_multiple_parsing_methods`: the strategies run in order and the
first success is returned; when none succeeds the fallback result is
returned as is. -/
def tryMultipleParsingMethods (ldItems scriptCands : List ExtractedData)
    (structData fallbackData : ExtractedData) (selectorConfidence : ℚ) : ScrapingResult :=
  let r1 := tryJsonLd ldItems
  if r1.success then r1 else
  let r2 := tryScriptJson scriptCands
  if r2.success then r2 else
  let r3 := tryStructuredHtml structData selectorConfidence
  if r3.success then r3 else
  tryFallbackHtml fallbackData

/-- Result of one whole extraction call: the parse result (absent when the
transport layer returned `None`) and the circuit-breaker state after. -/
structure ExtractOutcome where
  result : Option ScrapingResult
  state : CBState
deriving Repr, DecidableEq

/-- One extraction call: `_make_robust_request` followed, on a response,
by `_try_multiple_parsing_methods`.  The parsing phase never touches the
circuit-breaker state. -/
def extractStep (now : Int) (attempts : List FetchOutcome)
    (ldItems scriptCands : List ExtractedData) (structData fallbackData : ExtractedData)
    (selectorConfidence : ℚ) (s : CBState) : ExtractOutcome :=
  let rr := makeRobustRequest now attempts s
  if rr.responded then
    ⟨some (tryMultipleParsingMethods ldItems scriptCands structData fallbackData
      selectorConfidence), rr.state⟩
  else ⟨none, rr.state⟩

/-! ## Alert sender cooldown (`bot/alert_sender.py`) -/

/-- `AlertSender.alert_cooldown = 300` seconds ("5 minutes between same
alerts to same user"). -/
def alert_cooldown : Int := 300

/-- An `AlertHistory` record as logged by `AlertSender._log_alert`. -/
structure AlertHistory where
  user_id : Int
  sneaker_name : String
  alert_type : String
  retailer : String
  price : Option ℚ
  created_at : Int
deriving Repr, DecidableEq

/-- Modelled from the spec: the Persistence collaborator's
`GetAlertHistory(recipient, item, kind, since)` query, used by
`db_manager.get_last_alert_for_sneaker`, whose implementation (the
`Sneaker Bot` database module) is not included under `src/`.  It returns
the most recent persisted alert-history entry for the given
(recipient, item, kind); histories are appended chronologically, so the
most recent matching entry is the last one. -/
def getLastAlertForSneaker (hist : List AlertHistory) (u : Int) (n t : String) :
    Option AlertHistory :=
  (hist.filter fun a =>
    decide (a.user_id = u ∧ a.sneaker_name = n ∧ a.alert_type = t)).getLast?

/-- `AlertSender._is_in_cooldown`: true iff a matching last alert exists
and is younger than `alert_cooldown` seconds. -/
def isInCooldown (now : Int) (hist : List AlertHistory) (u : Int) (n t : String) : Bool :=
  match getLastAlertForSneaker hist u n t with
  | none => false
  | some a => decide (now - a.created_at < alert_cooldown)

/-- One pending dispatch: the per-user loop body shared by
`send_restock_alert`, `send_price_drop_alert` and `send_resell_deal_alert`.
`can_send` is the result of the quota check `_can_send_alert`. -/
structure DispatchReq where
  time : Int
  can_send : Bool
  user_id : Int
  sneaker_name : String
  alert_type : String
deriving Repr, DecidableEq

/-- The loop body: skip unless the quota check passes and the alert is not
in cooldown; on dispatch, `_log_alert` appends a history entry. -/
def sendAlertStep (r : DispatchReq) (hist : List AlertHistory) : List AlertHistory :=
  if r.can_send ∧ ¬ isInCooldown r.time hist r.user_id r.sneaker_name r.alert_type then
    hist ++ [⟨r.user_id, r.sneaker_name, r.alert_type, "", none, r.time⟩]
  else hist

/-- A sequence of dispatch attempts against the persisted history. -/
def runDispatch (reqs : List DispatchReq) (hist : List AlertHistory) : List AlertHistory :=
  reqs.foldl (fun h r => sendAlertStep r h) hist

/-- The dedup key of an alert-history entry: (recipient, item, kind). -/
def sameAlertKey (a b : AlertHistory) : Prop :=
  a.user_id = b.user_id ∧ a.sneaker_name = b.sneaker_name ∧ a.alert_type = b.alert_type

instance : ∀ a b : AlertHistory, Decidable (sameAlertKey a b) := fun a b => by
  unfold sameAlertKey; infer_instance

/-! ## Monitoring engine alert queue (`app/monitoring_engine.py`)

`MonitoringEngine.__init__` creates `self.alert_queue = asyncio.Queue()`;
an `asyncio.Queue` with `maxsize <= 0` reports `full()` as `False` at
every size and `put` never blocks.  `process_alerts` is the single
consumer task, repeatedly `get`-ing from the front.
-/

/-- An `asyncio.Queue` state: its `maxsize` and its items, front first. -/
structure AQueue (α : Type) where
  maxsize : Nat
  items : List α
deriving Repr

/-- `asyncio.Queue.full()`: false when `maxsize` is 0, else
`qsize() >= maxsize`. -/
def qfull (q : AQueue α) : Bool :=
  decide (0 < q.maxsize ∧ q.maxsize ≤ q.items.length)

/-- `asyncio.Queue.put`: blocks (no resulting state) when the queue is
full, else appends at the back. -/
def qput (q : AQueue α) (x : α) : Option (AQueue α) :=
  if qfull q then none else some ⟨q.maxsize, q.items ++ [x]⟩

/-- `asyncio.Queue.get`: waits on an empty queue, else removes the front. -/
def qget (q : AQueue α) : Option (α × AQueue α) :=
  match q.items with
  | [] => none
  | x :: rest => some (x, ⟨q.maxsize, rest⟩)

/-- `MonitoringEngine.__init__`: `asyncio.Queue()` has default
`maxsize = 0`. -/
def monitoringEngineQueue (α : Type) : AQueue α := ⟨0, []⟩

/-- Producers enqueue in order (`alert_queue.put` in a loop). -/
def enqueueAll (q : AQueue α) (xs : List α) : Option (AQueue α) :=
  xs.foldl (fun acc x => acc.bind fun qq => qput qq x) (some q)

/-! ## Scraper health monitor alerts (`scraper_health_monitor.py`) -/

/-- `HealthStatus`. -/
inductive HealthStatus where
  | healthy | warning | critical | down
deriving Repr, DecidableEq

/-- A `HealthAlert` as constructed in `_check_for_alerts` (the message and
details payloads are omitted; they are derived text). -/
structure HealthAlertRec where
  retailer : String
  alert_type : String
  severity : HealthStatus
  timestamp : Int
deriving Repr, DecidableEq

/-- The metric fields `_check_for_alerts` reads. -/
structure MetricsInput where
  retailer : String
  status : HealthStatus
  error_patterns : List String
deriving Repr, DecidableEq

/-- `self.last_alerts : Dict[str, datetime]`, keyed by retailer alone. -/
def lookupLast (st : List (String × Int)) (r : String) : Option Int :=
  match st.find? (fun p => p.1 == r) with
  | some p => some p.2
  | none => none

/-- Dictionary update `self.last_alerts[retailer] = now`. -/
def setLast (st : List (String × Int)) (r : String) (t : Int) : List (String × Int) :=
  (r, t) :: st.filter (fun p => p.1 != r)

/-- The `alerts_to_send` list: a `status_critical` alert on a
Critical/Down status, a `site_changes` alert and a `rate_limiting` alert
when the corresponding error pattern is present. -/
def alertsToSend (now : Int) (m : MetricsInput) : List HealthAlertRec :=
  (if m.status = .critical ∨ m.status = .down then
    [⟨m.retailer, "status_critical", m.status, now⟩] else []) ++
  (if "site_changes" ∈ m.error_patterns then
    [⟨m.retailer, "site_changes", .warning, now⟩] else []) ++
  (if "rate_limiting" ∈ m.error_patterns then
    [⟨m.retailer, "rate_limiting", .warning, now⟩] else [])

/-- `ScraperHealthMonitor.alert_cooldown = 300` seconds. -/
def health_alert_cooldown : Int := 300

/-- `_check_for_alerts`: return nothing while the per-retailer cooldown is
active; otherwise send every alert in `alerts_to_send` and, when at least
one was sent, record `last_alerts[retailer] = now`. -/
def checkForAlerts (now : Int) (m : MetricsInput) (st : List (String × Int)) :
    List HealthAlertRec × List (String × Int) :=
  let proceed :=
    let b := alertsToSend now m
    (b, if b = [] then st else setLast st m.retailer now)
  match lookupLast st m.retailer with
  | some t => if now - t < health_alert_cooldown then ([], st) else proceed
  | none => proceed

/-- One health-check run for one retailer. -/
structure MonitorStep where
  time : Int
  metrics : MetricsInput
deriving Repr, DecidableEq

/-- A sequence of health-check runs, collecting every alert sent. -/
def runMonitor : List MonitorStep → List (String × Int) → List HealthAlertRec
  | [], _ => []
  | s :: rest, st =>
    let r := checkForAlerts s.time s.metrics st
    r.1 ++ runMonitor rest r.2

/-! ## Spec-side formulas and concrete sample inputs used by the theorems -/

/-- The confidence formula as the specification states it: each required
field that is present and valid contributes `0.7/3`, each important field
that is present contributes `0.3/4`, each structurally invalid field
subtracts `0.2`, and the result is clamped to `[0, 1]`. -/
def claimConfidence (d : ExtractedData) : ℚ :=
  let inv := invalidFields d
  let reqCount : ℚ :=
    (if strTruthy d.name ∧ ¬ "name" ∈ inv then 1 else 0) +
    (if priceFieldTruthy d.price ∧ ¬ "price" ∈ inv then 1 else 0) +
    (if strTruthy d.url ∧ ¬ "url" ∈ inv then 1 else 0)
  let raw := reqCount * ((7/10) / 3) + (importantCount d : ℚ) * ((3/10) / 4)
    - (inv.length : ℚ) * (2/10)
  min 1 (max 0 raw)

/-- The confidence formula the code actually computes, written per field:
`0.7/7 = 1/10` for each present required field, `0.3/7 = 3/70` for each
present important field, minus `0.2` per invalid field, clamped below
at `0`. -/
def amendedConfidence (d : ExtractedData) : ℚ :=
  let present : ℚ :=
    (if strTruthy d.name then 1 else 0) + (if priceFieldTruthy d.price then 1 else 0) +
    (if strTruthy d.url then 1 else 0)
  max 0 (present * (1/10) + (importantCount d : ℚ) * (3/70)
    - ((invalidFields d).length : ℚ) * (1/5))

/-- A fully populated, fully valid extracted record. -/
def fullSampleData : ExtractedData :=
  { name := some "Air Jordan 4 Bred", price := some ⟨true, "250"⟩,
    url := some "https://example.com/aj4", brand := some "Nike",
    model := some "Air Jordan 4", sku := some "FV5029-006",
    image := some "https://example.com/aj4.png" }

/-- Stored snapshot: out of stock, captured at time 0. -/
def priorOutOfStock : SneakerProduct :=
  ⟨"FV5029-006", "nike", "Air Jordan 4 Bred", "https://nike.com/aj4", some 210, false, 0⟩

/-- New snapshot of the same key: in stock, captured 40 minutes later. -/
def newInStock : SneakerProduct :=
  ⟨"FV5029-006", "nike", "Air Jordan 4 Bred", "https://nike.com/aj4", some 210, true, 2400⟩

/-- Stored snapshot with price 200, captured at time 0. -/
def priorPrice200 : SneakerProduct :=
  ⟨"DQ8426-060", "nike", "Dunk Low Panda", "https://nike.com/dunk", some 200, true, 0⟩

/-- New snapshot of the same key two hours later, priced 190: exactly a
5% drop from 200. -/
def newPrice190 : SneakerProduct :=
  ⟨"DQ8426-060", "nike", "Dunk Low Panda", "https://nike.com/dunk", some 190, true, 7200⟩

/-- New snapshot of the same key two hours later, priced 188: a 6% drop. -/
def newPrice188 : SneakerProduct :=
  ⟨"DQ8426-060", "nike", "Dunk Low Panda", "https://nike.com/dunk", some 188, true, 7200⟩

/-- A product in stock at retail price 100. -/
def flipProduct : SneakerProduct :=
  ⟨"IF6563-100", "footlocker", "Jordan 4 Retro", "https://fl.com/j4", some 100, true, 0⟩

/-- Two dispatch requests for the same (recipient, item, kind) key,
10 minutes apart, both passing the quota check. -/
def twoSameKeyReqs : List DispatchReq :=
  [⟨0, true, 1, "Jordan 4 Bred", "restock"⟩, ⟨600, true, 1, "Jordan 4 Bred", "restock"⟩]

/-- Two health-check runs for the same source, both Critical, 6 minutes
apart. -/
def twoCriticalRuns : List MonitorStep :=
  [⟨0, ⟨"nike", .critical, []⟩⟩, ⟨360, ⟨"nike", .critical, []⟩⟩]

/-- An extracted record with every key absent. -/
def emptyData : ExtractedData := {}

/-! ## Helper lemmas -/

lemma importantCount_le_four (d : ExtractedData) : importantCount d ≤ 4 := by
  unfold importantCount
  split <;> split <;> split <;> split <;> norm_num

lemma confidence_score_nonneg (d : ExtractedData) :
    0 ≤ (validateProductData d).confidence_score := by
  simp only [validateProductData]
  exact le_max_left 0 _

lemma confidence_score_le (d : ExtractedData) :
    (validateProductData d).confidence_score ≤ 33/70 := by
  have hi : (importantCount d : ℚ) ≤ 4 := by exact_mod_cast importantCount_le_four d
  have hm : (0:ℚ) ≤ ((missingFields d).length : ℚ) := Nat.cast_nonneg _
  have hv : (0:ℚ) ≤ ((invalidFields d).length : ℚ) := Nat.cast_nonneg _
  simp only [validateProductData, required_fields, important_fields,
    List.length_cons, List.length_nil]
  apply max_le (by norm_num)
  push_cast
  linarith

lemma emptyData_structured_bound :
    (validateProductData emptyData).confidence_score ≤ 3/10 := by
  with_unfolding_all decide

lemma emptyData_fallback_bound :
    (validateProductData emptyData).confidence_score ≤ 1/10 := by
  with_unfolding_all decide

/-! ## Claim theorems -/

/-- C1: the claim says a Restock event fires for a previously out-of-stock
snapshot at least 30 minutes old once the new snapshot is in stock, and
that the store retains at least the last previous snapshot so the
comparison remains possible after the new snapshot is persisted.  The
code persists with `upsert_product`, which overwrites the single stored
document per (sku, retailer) before `_is_restock` runs: afterwards the
only stored document carries `last_checked = now`, the query filter
`last_checked < now - 30min` can never match, and `_is_restock` returns
false — even here, where the prior snapshot was out of stock and 40
minutes old and the new one is in stock. -/
theorem restock_never_fires_after_upsert :
    priorOutOfStock.is_in_stock = false ∧
    (1800 : Int) ≤ 2400 - priorOutOfStock.last_checked ∧
    newInStock.is_in_stock = true ∧
    upsertProduct 2400 newInStock [priorOutOfStock] = [newInStock] ∧
    isRestock 2400 newInStock (upsertProduct 2400 newInStock [priorOutOfStock]) = false := by
  decide

/-- C3 counterexample: with a stored price of 200 captured two hours
earlier and a new price of 190, the claim's condition
`new.price <= prior.price * 0.95` holds (an exactly-5% drop), yet
`_is_price_drop`, which uses strict `<`, does not fire. -/
theorem price_drop_exact_five_percent_counterexample :
    newPrice190.price = some 190 ∧ priorPrice200.price = some 200 ∧
    (190 : ℚ) ≤ 200 * (19/20) ∧
    priorPrice200.last_checked < 7200 - 3600 ∧
    isPriceDrop 7200 newPrice190 [priorPrice200] = false := by
  with_unfolding_all decide

/-- C3 (amended): when the store holds at most one document per
(sku, retailer) key — the unique-index invariant — a PriceDrop fires if
and only if the new snapshot has a truthy price, the stored snapshot of
the same key has a truthy price and is at least one hour old, and
`new.price < prior.price * 0.95` with *strict* comparison: an
exactly-5% drop does not fire, only a strictly-greater-than-5% drop
does. -/
theorem price_drop_fires_iff_strict (now : Int) (p : SneakerProduct)
    (store : List SneakerProduct)
    (huniq : ∀ r1 ∈ store, ∀ r2 ∈ store,
      r1.sku = p.sku → r1.retailer = p.retailer →
      r2.sku = p.sku → r2.retailer = p.retailer → r1 = r2) :
    isPriceDrop now p store = true ↔
      ∃ np prev pq, p.price = some np ∧ np ≠ 0 ∧
        prev ∈ store ∧ prev.sku = p.sku ∧ prev.retailer = p.retailer ∧
        prev.last_checked < now - 3600 ∧ prev.price = some pq ∧ pq ≠ 0 ∧
        np < pq * (19/20) := by
  constructor
  · intro h
    unfold isPriceDrop at h
    split at h
    next => exact absurd h (by simp)
    next np hp =>
      split at h
      next => exact absurd h (by simp)
      next hnp =>
        split at h
        next prev hq =>
          unfold findPriceDropPrev at hq
          have hpred := List.find?_some hq
          have hmem := List.mem_of_find?_eq_some hq
          simp only [decide_eq_true_eq] at hpred
          obtain ⟨hsku, hret, _hpr, hlc⟩ := hpred
          split at h
          next pq hpp =>
            split at h
            next => exact absurd h (by simp)
            next hpq =>
              simp only [decide_eq_true_eq] at h
              exact ⟨np, prev, pq, hp, hnp, hmem, hsku, hret, hlc, hpp, hpq, h⟩
          next => exact absurd h (by simp)
        next => exact absurd h (by simp)
  · rintro ⟨np, prev, pq, hp, hnp, hmem, hsku, hret, hlc, hpp, hpq, hlt⟩
    have hpredprev : (fun r => decide (r.sku = p.sku ∧ r.retailer = p.retailer ∧
        r.price ≠ none ∧ r.last_checked < now - 3600)) prev = true := by
      simp [hsku, hret, hpp, hlc]
    have hsome : (findPriceDropPrev now p store).isSome := by
      unfold findPriceDropPrev
      exact List.find?_isSome.mpr ⟨prev, hmem, hpredprev⟩
    obtain ⟨r, hr⟩ := Option.isSome_iff_exists.mp hsome
    have hr2 := hr
    unfold findPriceDropPrev at hr2
    have hrpred := List.find?_some hr2
    have hrmem := List.mem_of_find?_eq_some hr2
    simp only [decide_eq_true_eq] at hrpred
    have hreq : r = prev := huniq r hrmem prev hmem hrpred.1 hrpred.2.1 hsku hret
    have hr3 : findPriceDropPrev now p store = some prev := by rw [← hreq]; exact hr
    unfold isPriceDrop
    rw [hp]
    show (if np = 0 then false
      else match findPriceDropPrev now p store with
        | some prev =>
          match prev.price with
          | some pq => if pq = 0 then false else decide (np < pq * (19/20))
          | none => false
        | none => false) = true
    rw [if_neg hnp, hr3]
    show (match prev.price with
      | some pq => if pq = 0 then false else decide (np < pq * (19/20))
      | none => false) = true
    rw [hpp]
    show (if pq = 0 then false else decide (np < pq * (19/20))) = true
    rw [if_neg hpq]
    exact decide_eq_true hlt

/-- Witness for `price_drop_fires_iff_strict`: a 6% drop (200 → 188, two
hours apart) fires. -/
theorem price_drop_fires_iff_strict_witness :
    isPriceDrop 7200 newPrice188 [priorPrice200] = true :=
  (price_drop_fires_iff_strict 7200 newPrice188 [priorPrice200] (by simp)).mpr
    ⟨188, priorPrice200, 200, rfl, by simp, by simp, rfl, rfl,
      by simp [priorPrice200], rfl, by simp, by with_unfolding_all decide⟩

/-- C6 counterexample: `_calculate_flip_opportunity` fires on a single
resale sample — the claim requires at least 3 samples.  With retail
price 100 and one sample at 200 the margin is 100%, and the event
fires with `sample_size = 1`. -/
theorem flip_single_sample_counterexample :
    calculateFlipOpportunity flipProduct [(200:ℚ)] = some ⟨100, 200, 100, 100, 1⟩ ∧
    [(200:ℚ)].length < 3 := by
  with_unfolding_all decide

/-- C6 (amended): a FlipOpportunity fires if and only if the product has
a truthy price, is in stock, at least one resale sample is available
(there is no minimum-3 requirement in the code), and
margin% = (average resale − retail)/retail × 100 is at least 25.  A
24.9% margin does not fire; an exactly-25% margin does. -/
theorem flip_opportunity_fires_iff :
    (∀ (p : SneakerProduct) (resell : List ℚ),
      (calculateFlipOpportunity p resell).isSome = true ↔
        ∃ pr, p.price = some pr ∧ pr ≠ 0 ∧ p.is_in_stock = true ∧ resell ≠ [] ∧
          25 ≤ (resell.sum / (resell.length : ℚ) - pr) / pr * 100) ∧
    calculateFlipOpportunity flipProduct [(1249:ℚ)/10] = none ∧
    calculateFlipOpportunity flipProduct [(125:ℚ)] = some ⟨100, 125, 25, 25, 1⟩ := by
  refine ⟨?_, by with_unfolding_all decide, by with_unfolding_all decide⟩
  intro p resell
  cases hp : p.price with
  | none => simp [calculateFlipOpportunity, hp]
  | some pr =>
    simp only [calculateFlipOpportunity, hp]
    by_cases h1 : pr = 0 ∨ ¬ p.is_in_stock = true
    · rw [if_pos h1]
      simp only [Option.isSome_none, Bool.false_eq_true, false_iff]
      rintro ⟨pr2, hpr2, hne, hst, -, -⟩
      rw [Option.some.injEq] at hpr2
      subst hpr2
      rcases h1 with h | h
      · exact hne h
      · exact h hst
    · rw [if_neg h1]
      push_neg at h1
      by_cases h2 : resell = []
      · rw [if_pos h2]
        simp only [Option.isSome_none, Bool.false_eq_true, false_iff]
        rintro ⟨pr2, -, -, -, hres, -⟩
        exact hres h2
      · rw [if_neg h2]
        by_cases h3 : 25 ≤ (resell.sum / (resell.length : ℚ) - pr) / pr * 100
        · rw [if_pos h3]
          simp only [Option.isSome_some, true_iff]
          exact ⟨pr, rfl, h1.1, h1.2, h2, h3⟩
        · rw [if_neg h3]
          simp only [Option.isSome_none, Bool.false_eq_true, false_iff]
          rintro ⟨pr2, hpr2, -, -, -, hmargin⟩
          rw [Option.some.injEq] at hpr2
          subst hpr2
          exact h3 hmargin

/-- C8 counterexample: the monitoring engine's alert queue is created as
`asyncio.Queue()` with `maxsize = 0`; there is no positive capacity at
which a producer's `put` would block. -/
theorem queue_unbounded_counterexample :
    (monitoringEngineQueue Int).maxsize = 0 ∧
    ¬ ∃ n : Nat, 0 < n ∧ ∀ (xs : List Int) (x : Int),
        n ≤ xs.length → qput ⟨(monitoringEngineQueue Int).maxsize, xs⟩ x = none := by
  refine ⟨rfl, ?_⟩
  rintro ⟨n, hn, h⟩
  have hblock := h (List.replicate n 0) 0 (by simp)
  simp [qput, qfull, monitoringEngineQueue] at hblock

/-- C8 (amended): the alert queue is unbounded (`asyncio.Queue()` with
default `maxsize = 0`): it is never full, `put` always succeeds
immediately by appending at the back (nothing is dropped and producers
never block), and the single consumer receives items strictly in FIFO
order — enqueuing a list onto the empty engine queue stores it verbatim
and `get` always removes the front element. -/
theorem queue_fifo_unbounded :
    (∀ (xs : List Int) (x : Int), qfull (⟨0, xs⟩ : AQueue Int) = false ∧
        qput (⟨0, xs⟩ : AQueue Int) x = some ⟨0, xs ++ [x]⟩) ∧
    (∀ xs : List Int, enqueueAll (monitoringEngineQueue Int) xs = some ⟨0, xs⟩) ∧
    (∀ (x : Int) (xs : List Int), qget (⟨0, x :: xs⟩ : AQueue Int) = some (x, ⟨0, xs⟩)) := by
  have hstep : ∀ (acc : List Int) (xs : List Int),
      enqueueAll (⟨0, acc⟩ : AQueue Int) xs = some ⟨0, acc ++ xs⟩ := by
    intro acc xs
    induction xs generalizing acc with
    | nil => simp [enqueueAll]
    | cons x rest ih =>
      have h1 : qput (⟨0, acc⟩ : AQueue Int) x = some ⟨0, acc ++ [x]⟩ := by
        simp [qput, qfull]
      calc enqueueAll (⟨0, acc⟩ : AQueue Int) (x :: rest)
          = enqueueAll (⟨0, acc ++ [x]⟩ : AQueue Int) rest := by
            simp [enqueueAll, h1]
        _ = some ⟨0, acc ++ x :: rest⟩ := by rw [ih]; simp
  refine ⟨fun xs x => ⟨by simp [qfull], by simp [qput, qfull]⟩, ?_, fun x xs => rfl⟩
  intro xs
  simpa using hstep [] xs

/-- C10: for every input record the confidence score lies in
`[0, 33/70]`; the maximum `33/70 = (3·0.7 + 4·0.3)/7 ≈ 0.471` is attained
on a record with all seven fields present and none invalid; since
`33/70 < 0.5`, the script-JSON strategy's acceptance condition
`confidence_score > 0.5` is unsatisfiable and `_try_script_json_parsing`
never returns a success result. -/
theorem script_json_success_unsatisfiable :
    (∀ d : ExtractedData, 0 ≤ (validateProductData d).confidence_score ∧
        (validateProductData d).confidence_score ≤ 33/70) ∧
    (validateProductData fullSampleData).confidence_score = 33/70 ∧
    ((33:ℚ)/70 < 1/2) ∧
    (∀ cands : List ExtractedData, (tryScriptJson cands).success = false) := by
  refine ⟨fun d => ⟨confidence_score_nonneg d, confidence_score_le d⟩,
    by with_unfolding_all decide, by norm_num, ?_⟩
  intro cands
  unfold tryScriptJson
  have hnone : cands.find?
      (fun d => decide ((1:ℚ)/2 < (validateProductData d).confidence_score)) = none := by
    rw [List.find?_eq_none]
    intro d _
    simp only [decide_eq_true_eq, not_lt]
    exact le_trans (confidence_score_le d) (by norm_num)
  rw [hnone]

/-- C4 counterexample: on a record with all three required fields present
and valid, all four important fields present and nothing invalid, the
claim's formula (`0.7/3` per required field, `0.3/4` per important field)
yields 1, but the code computes `(3·0.7 + 4·0.3)/7 = 33/70`, because it
divides the whole weighted sum by all 7 fields. -/
theorem confidence_weights_counterexample :
    claimConfidence fullSampleData = 1 ∧
    (validateProductData fullSampleData).confidence_score = 33/70 ∧
    ((33:ℚ)/70) ≠ 1 := by
  with_unfolding_all decide

/-- C4 (amended): the confidence score equals
`max 0 (presentRequired · 0.1 + presentImportant · 3/70 − 0.2 · invalidCount)`:
each required field (name, price, url) that is present and truthy
contributes `0.7/7 = 1/10` (regardless of validity), each important field
present contributes `0.3/7 = 3/70`, each structurally invalid field
(price not extracting into `(0, 10000]`, name shorter than 3 characters
after stripping, url not starting with `http(s)://`) subtracts `0.2`,
and the result is clamped below at 0 (it never exceeds `33/70 < 1`). -/
theorem confidence_score_formula_amended (d : ExtractedData) :
    (validateProductData d).confidence_score = amendedConfidence d := by
  simp only [validateProductData, amendedConfidence, missingFields,
    required_fields, important_fields]
  by_cases h1 : strTruthy d.name <;> by_cases h2 : priceFieldTruthy d.price <;>
    by_cases h3 : strTruthy d.url <;>
      simp [h1, h2, h3] <;> congr 1 <;> ring

/-- C2: the circuit breaker stays Closed below 5 consecutive failures;
at 5 or more failures it is Open, and every request short-circuits with
zero fetch calls and unchanged state while less than 300 seconds have
elapsed since the last failure; once 300 seconds have elapsed the breaker
reports closed, so a trial request is allowed through; a successful trial
resets the state to 0 failures (Closed at every later time), and a failed
trial sets the count to one more with a fresh last-failure time, leaving
the breaker Open again for the next 300 seconds. -/
theorem circuit_breaker_state_machine :
    (∀ (now : Int) (s : CBState), s.failure_count < 5 →
        isCircuitBreakerOpen now s = false) ∧
    (∀ (now t : Int) (s : CBState) (attempts : List FetchOutcome),
        5 ≤ s.failure_count → s.last_failure_time = some t → now - t < 300 →
        isCircuitBreakerOpen now s = true ∧
        makeRobustRequest now attempts s = ⟨false, s, 0⟩) ∧
    (∀ (now t : Int) (s : CBState), 5 ≤ s.failure_count →
        s.last_failure_time = some t → 300 ≤ now - t →
        isCircuitBreakerOpen now s = false) ∧
    (∀ (now now2 : Int) (attempts : List FetchOutcome) (s : CBState),
        isCircuitBreakerOpen now s = false → (runAttempts attempts).1 = true →
        (makeRobustRequest now attempts s).state = ⟨0, none⟩ ∧
        isCircuitBreakerOpen now2 (makeRobustRequest now attempts s).state = false) ∧
    (∀ (now now2 : Int) (attempts : List FetchOutcome) (s : CBState),
        isCircuitBreakerOpen now s = false → (runAttempts attempts).1 = false →
        (makeRobustRequest now attempts s).state.failure_count = s.failure_count + 1 ∧
        (makeRobustRequest now attempts s).state.last_failure_time = some now ∧
        (5 ≤ s.failure_count + 1 → now2 - now < 300 →
          isCircuitBreakerOpen now2 (makeRobustRequest now attempts s).state = true)) := by
  refine ⟨?_, ?_, ?_, ?_, ?_⟩
  · intro now s h
    simp [isCircuitBreakerOpen, circuit_breaker_threshold, h]
  · intro now t s attempts h5 hlf hcd
    have hno : ¬ s.failure_count < 5 := by omega
    have hopen : isCircuitBreakerOpen now s = true := by
      simp [isCircuitBreakerOpen, circuit_breaker_threshold, circuit_breaker_timeout,
        hno, hlf, hcd]
    exact ⟨hopen, by simp [makeRobustRequest, hopen]⟩
  · intro now t s h5 hlf hcd
    have hno : ¬ s.failure_count < 5 := by omega
    have hncd : ¬ now - t < 300 := by omega
    simp [isCircuitBreakerOpen, circuit_breaker_threshold, circuit_breaker_timeout,
      hno, hlf, hncd]
  · intro now now2 attempts s hclosed hok
    have hst : (makeRobustRequest now attempts s).state = ⟨0, none⟩ := by
      simp [makeRobustRequest, hclosed, hok, recordSuccess]
    exact ⟨hst, by rw [hst]; simp [isCircuitBreakerOpen, circuit_breaker_threshold]⟩
  · intro now now2 attempts s hclosed hfail
    refine ⟨?_, ?_, ?_⟩
    · simp [makeRobustRequest, hclosed, hfail, recordFailure]
    · simp [makeRobustRequest, hclosed, hfail, recordFailure]
    · intro h5 hcd
      have hno : ¬ (makeRobustRequest now attempts s).state.failure_count < 5 := by
        simp [makeRobustRequest, hclosed, hfail, recordFailure]
        omega
      have hlf : (makeRobustRequest now attempts s).state.last_failure_time = some now := by
        simp [makeRobustRequest, hclosed, hfail, recordFailure]
      simp [isCircuitBreakerOpen, circuit_breaker_threshold, circuit_breaker_timeout,
        hno, hlf, hcd]

/-- Witness for `circuit_breaker_state_machine`: the spec's end-to-end
scenario at concrete values — 3 failures keep the breaker Closed; at 5
failures a request 100 seconds later short-circuits with zero fetch
calls; at 300 seconds the breaker reports closed; a successful trial
resets to 0 failures and stays Closed; a failed trial moves to 6
failures at time 300 and the breaker is Open again at time 400. -/
theorem circuit_breaker_state_machine_witness :
    isCircuitBreakerOpen 0 ⟨3, some 0⟩ = false ∧
    (isCircuitBreakerOpen 100 ⟨5, some 0⟩ = true ∧
      makeRobustRequest 100 [FetchOutcome.transportError] ⟨5, some 0⟩ =
        ⟨false, ⟨5, some 0⟩, 0⟩) ∧
    isCircuitBreakerOpen 300 ⟨5, some 0⟩ = false ∧
    ((makeRobustRequest 300 [FetchOutcome.status 200] ⟨5, some 0⟩).state = ⟨0, none⟩ ∧
      isCircuitBreakerOpen 1000
        (makeRobustRequest 300 [FetchOutcome.status 200] ⟨5, some 0⟩).state = false) ∧
    ((makeRobustRequest 300 [FetchOutcome.transportError] ⟨5, some 0⟩).state.failure_count =
        5 + 1 ∧
      (makeRobustRequest 300 [FetchOutcome.transportError] ⟨5, some 0⟩).state.last_failure_time =
        some 300 ∧
      (5 ≤ 5 + 1 → (400 : Int) - 300 < 300 →
        isCircuitBreakerOpen 400
          (makeRobustRequest 300 [FetchOutcome.transportError] ⟨5, some 0⟩).state = true)) :=
  ⟨circuit_breaker_state_machine.1 0 ⟨3, some 0⟩ (by decide),
   circuit_breaker_state_machine.2.1 100 0 ⟨5, some 0⟩ [FetchOutcome.transportError]
     (by decide) rfl (by decide),
   circuit_breaker_state_machine.2.2.1 300 0 ⟨5, some 0⟩ (by decide) rfl (by decide),
   circuit_breaker_state_machine.2.2.2.1 300 1000 [FetchOutcome.status 200] ⟨5, some 0⟩
     (by decide) (by decide),
   circuit_breaker_state_machine.2.2.2.2 300 400 [FetchOutcome.transportError] ⟨5, some 0⟩
     (by decide) (by decide)⟩

/-- C5 counterexample: with 3 recorded failures, a successful fetch whose
parsing strategies all fail returns an empty non-error result but resets
the consecutive-failure counter to 0 — it does not leave it unchanged at
3. -/
theorem parse_exhausted_counter_counterexample :
    (extractStep 0 [FetchOutcome.status 200] [] [] emptyData emptyData 1
      ⟨3, some (-10)⟩).result = some ⟨false, .html_fallback, some emptyData, none, 0⟩ ∧
    (extractStep 0 [FetchOutcome.status 200] [] [] emptyData emptyData 1
      ⟨3, some (-10)⟩).state.failure_count = 0 ∧
    (3 : Nat) ≠ 0 := by
  with_unfolding_all decide

/-- C5 (amended): when the transport succeeds but every parsing strategy
fails or scores at or below its threshold (JSON-LD items all invalid,
script-JSON unsatisfiable, structured ≤ 0.3, fallback ≤ 0.1), the call
returns the fallback result — non-success, with no error value — and the
consecutive-failure counter is not incremented: the successful transport
resets it to 0.  A transport failure persisting through the retry cap
returns no result and increments the counter by exactly one. -/
theorem parse_vs_transport_failure_accounting :
    (∀ (now : Int) (attempts : List FetchOutcome)
        (ldItems scriptCands : List ExtractedData) (sd fd : ExtractedData)
        (sc : ℚ) (s : CBState),
        isCircuitBreakerOpen now s = false → (runAttempts attempts).1 = true →
        (∀ d ∈ ldItems, (validateProductData d).is_valid = false) →
        (validateProductData sd).confidence_score ≤ 3/10 →
        (validateProductData fd).confidence_score ≤ 1/10 →
        (extractStep now attempts ldItems scriptCands sd fd sc s).result =
          some ⟨false, .html_fallback, some fd, none,
            (validateProductData fd).confidence_score⟩ ∧
        (extractStep now attempts ldItems scriptCands sd fd sc s).state.failure_count = 0) ∧
    (∀ (now : Int) (attempts : List FetchOutcome)
        (ldItems scriptCands : List ExtractedData) (sd fd : ExtractedData)
        (sc : ℚ) (s : CBState),
        isCircuitBreakerOpen now s = false → (runAttempts attempts).1 = false →
        (extractStep now attempts ldItems scriptCands sd fd sc s).result = none ∧
        (extractStep now attempts ldItems scriptCands sd fd sc s).state.failure_count =
          s.failure_count + 1) := by
  constructor
  · intro now attempts ldItems scriptCands sd fd sc s hclosed hok hld hsd hfd
    have h1 : (tryJsonLd ldItems).success = false := by
      unfold tryJsonLd
      rw [List.find?_eq_none.mpr (by intro d hd; simp [hld d hd])]
    have h2 : ∀ cands : List ExtractedData, (tryScriptJson cands).success = false := by
      intro cands
      unfold tryScriptJson
      rw [List.find?_eq_none.mpr ?_]
      intro d _
      simp only [decide_eq_true_eq, not_lt]
      exact le_trans (confidence_score_le d) (by norm_num)
    have h3 : (tryStructuredHtml sd sc).success = false := by
      unfold tryStructuredHtml
      rw [if_neg (not_lt.mpr hsd)]
    have h4 : tryFallbackHtml fd = ⟨false, .html_fallback, some fd, none,
        (validateProductData fd).confidence_score⟩ := by
      simp only [tryFallbackHtml]
      rw [decide_eq_false (not_lt.mpr hfd)]
    have hres : tryMultipleParsingMethods ldItems scriptCands sd fd sc =
        ⟨false, .html_fallback, some fd, none,
          (validateProductData fd).confidence_score⟩ := by
      unfold tryMultipleParsingMethods
      rw [if_neg (by simp [h1]), if_neg (by simp [h2]), if_neg (by simp [h3]), h4]
    constructor
    · simp [extractStep, makeRobustRequest, hclosed, hok, hres]
    · simp [extractStep, makeRobustRequest, hclosed, hok, recordSuccess]
  · intro now attempts ldItems scriptCands sd fd sc s hclosed hfail
    constructor
    · simp [extractStep, makeRobustRequest, hclosed, hfail]
    · simp [extractStep, makeRobustRequest, hclosed, hfail, recordFailure]

/-- Witness for `parse_vs_transport_failure_accounting`: a successful
fetch with no parse candidates leaves failure count 0 and yields the
non-success, error-free fallback result; an exhausted transport attempt
returns nothing and bumps the counter from 0 to 1. -/
theorem parse_vs_transport_failure_accounting_witness :
    ((extractStep 0 [FetchOutcome.status 200] [] [] emptyData emptyData 1
        ⟨0, none⟩).result = some ⟨false, .html_fallback, some emptyData, none,
          (validateProductData emptyData).confidence_score⟩ ∧
      (extractStep 0 [FetchOutcome.status 200] [] [] emptyData emptyData 1
        ⟨0, none⟩).state.failure_count = 0) ∧
    ((extractStep 0 [FetchOutcome.transportError] [] [] emptyData emptyData 1
        ⟨0, none⟩).result = none ∧
      (extractStep 0 [FetchOutcome.transportError] [] [] emptyData emptyData 1
        ⟨0, none⟩).state.failure_count = 0 + 1) :=
  ⟨parse_vs_transport_failure_accounting.1 0 [FetchOutcome.status 200] [] []
      emptyData emptyData 1 ⟨0, none⟩ (by decide) (by decide) (by simp)
      emptyData_structured_bound emptyData_fallback_bound,
   parse_vs_transport_failure_accounting.2 0 [FetchOutcome.transportError] [] []
      emptyData emptyData 1 ⟨0, none⟩ (by decide) (by decide)⟩

lemma pairwise_getLast_rel {α : Type} {R : α → α → Prop} :
    ∀ {l : List α}, List.Pairwise R l → ∀ {x y : α}, x ∈ l → l.getLast? = some y →
      x = y ∨ R x y := by
  intro l
  induction l with
  | nil => intro _ x y hx _; cases hx
  | cons a rest ih =>
    intro hp x y hx hy
    cases rest with
    | nil =>
      rw [List.getLast?_singleton] at hy
      rw [List.mem_singleton] at hx
      rw [Option.some.injEq] at hy
      exact Or.inl (hx.trans hy)
    | cons b rest2 =>
      rw [List.getLast?_cons_cons] at hy
      rcases List.mem_cons.mp hx with hxa | hxr
      · subst hxa
        have hymem : y ∈ b :: rest2 := List.mem_of_getLast?_eq_some hy
        exact Or.inr ((List.pairwise_cons.mp hp).1 y hymem)
      · exact ih (List.pairwise_cons.mp hp).2 hxr hy

lemma sendAlertStep_pairwise (r : DispatchReq) (hist : List AlertHistory)
    (hsp : List.Pairwise
      (fun a b => sameAlertKey a b → a.created_at + 300 ≤ b.created_at) hist) :
    List.Pairwise (fun a b => sameAlertKey a b → a.created_at + 300 ≤ b.created_at)
      (sendAlertStep r hist) := by
  unfold sendAlertStep
  split
  next hcond =>
    rw [List.pairwise_append]
    refine ⟨hsp, List.pairwise_singleton _ _, ?_⟩
    intro a ha b hb
    rw [List.mem_singleton] at hb
    subst hb
    intro hkey
    show a.created_at + 300 ≤ r.time
    obtain ⟨hk1, hk2, hk3⟩ := hkey
    have hpa : (fun e => decide (e.user_id = r.user_id ∧ e.sneaker_name = r.sneaker_name ∧
        e.alert_type = r.alert_type)) a = true := by
      simp only [decide_eq_true_eq]
      exact ⟨hk1, hk2, hk3⟩
    have hmem : a ∈ hist.filter (fun e => decide (e.user_id = r.user_id ∧
        e.sneaker_name = r.sneaker_name ∧ e.alert_type = r.alert_type)) :=
      List.mem_filter.mpr ⟨ha, hpa⟩
    have hncd := hcond.2
    cases hgl : (hist.filter (fun e => decide (e.user_id = r.user_id ∧
        e.sneaker_name = r.sneaker_name ∧ e.alert_type = r.alert_type))).getLast? with
    | none =>
      rw [List.getLast?_eq_none_iff] at hgl
      rw [hgl] at hmem
      cases hmem
    | some l =>
      have hlast : l.created_at + 300 ≤ r.time := by
        unfold isInCooldown getLastAlertForSneaker alert_cooldown at hncd
        rw [hgl] at hncd
        simp only [decide_eq_true_eq, not_lt] at hncd
        omega
      have hlmem := List.mem_of_getLast?_eq_some hgl
      have hlpred := (List.mem_filter.mp hlmem).2
      simp only [decide_eq_true_eq] at hlpred
      have hspf := List.Pairwise.filter (fun e => decide (e.user_id = r.user_id ∧
        e.sneaker_name = r.sneaker_name ∧ e.alert_type = r.alert_type)) hsp
      rcases pairwise_getLast_rel hspf hmem hgl with heq | hrel
      · subst heq
        exact hlast
      · have hkey2 : sameAlertKey a l :=
          ⟨hk1.trans hlpred.1.symm, hk2.trans hlpred.2.1.symm, hk3.trans hlpred.2.2.symm⟩
        have := hrel hkey2
        omega
  next => exact hsp

lemma runDispatch_pairwise (reqs : List DispatchReq) (hist : List AlertHistory)
    (hsp : List.Pairwise
      (fun a b => sameAlertKey a b → a.created_at + 300 ≤ b.created_at) hist) :
    List.Pairwise (fun a b => sameAlertKey a b → a.created_at + 300 ≤ b.created_at)
      (runDispatch reqs hist) := by
  induction reqs generalizing hist with
  | nil => exact hsp
  | cons r rest ih =>
    have hstep := sendAlertStep_pairwise r hist hsp
    exact ih (sendAlertStep r hist) hstep

set_option maxRecDepth 4000 in
/-- C7 counterexample: the alert cooldown in `AlertSender` is 300 seconds
(5 minutes), not 2 hours: two restock alerts for the same
(recipient, item, kind) key, requested 10 minutes apart, are both
dispatched — 600 seconds is well inside the claimed 2-hour window. -/
theorem alert_cooldown_two_hours_counterexample :
    runDispatch twoSameKeyReqs [] =
      [⟨1, "Jordan 4 Bred", "restock", "", none, 0⟩,
       ⟨1, "Jordan 4 Bred", "restock", "", none, 600⟩] ∧
    (600 : Int) - 0 < 7200 := by
  with_unfolding_all decide

/-- C7 (amended): before dispatch, `AlertSender`'s restock, price-drop
and resell-deal paths check a per-(recipient, item, kind) cooldown whose
default is `alert_cooldown = 300` seconds (5 minutes, not 2 hours); an
alert whose key matches one dispatched within that window is skipped and
not requeued.  Consequently, in any dispatch sequence starting from an
empty history, no two logged alerts with the same dedup key are ever
created less than 300 seconds apart. -/
theorem alert_cooldown_spacing (reqs : List DispatchReq) :
    List.Pairwise (fun a b => sameAlertKey a b → a.created_at + 300 ≤ b.created_at)
      (runDispatch reqs []) :=
  runDispatch_pairwise reqs [] List.Pairwise.nil

lemma find?_filter_of_imp {α : Type} (l : List α) (q f : α → Bool)
    (h : ∀ x, q x = true → f x = true) : (l.filter f).find? q = l.find? q := by
  induction l with
  | nil => rfl
  | cons a rest ih =>
    by_cases hf : f a = true
    · rw [List.filter_cons_of_pos hf]
      by_cases hq : q a = true
      · rw [List.find?_cons_of_pos _ hq, List.find?_cons_of_pos _ hq]
      · rw [List.find?_cons_of_neg _ hq, List.find?_cons_of_neg _ hq, ih]
    · have hq : ¬ q a = true := fun hqa => hf (h a hqa)
      rw [List.filter_cons_of_neg (by simpa using hf), ih, List.find?_cons_of_neg _ hq]

lemma lookupLast_setLast_self (st : List (String × Int)) (r : String) (t : Int) :
    lookupLast (setLast st r t) r = some t := by
  unfold lookupLast setLast
  rw [List.find?_cons_of_pos _ (by simp)]

lemma lookupLast_setLast_ne (st : List (String × Int)) (r r2 : String) (t : Int)
    (h : ¬ r2 = r) : lookupLast (setLast st r t) r2 = lookupLast st r2 := by
  unfold lookupLast setLast
  rw [List.find?_cons_of_neg _ (by simpa using fun he => h he.symm)]
  rw [find?_filter_of_imp st (fun p => p.1 == r2) (fun p => p.1 != r) ?_]
  intro x hx
  rw [beq_iff_eq] at hx
  rw [bne_iff_ne]
  rw [hx]
  exact h

lemma alertsToSend_fields (now : Int) (m : MetricsInput) :
    ∀ a ∈ alertsToSend now m, a.retailer = m.retailer ∧ a.timestamp = now := by
  intro a ha
  unfold alertsToSend at ha
  rcases List.mem_append.mp ha with h | h
  · rcases List.mem_append.mp h with h2 | h2
    · split at h2
      · rw [List.mem_singleton] at h2; subst h2; exact ⟨rfl, rfl⟩
      · cases h2
    · split at h2
      · rw [List.mem_singleton] at h2; subst h2; exact ⟨rfl, rfl⟩
      · cases h2
  · split at h
    · rw [List.mem_singleton] at h; subst h; exact ⟨rfl, rfl⟩
    · cases h

lemma alertsToSend_pairwise (now : Int) (m : MetricsInput) :
    List.Pairwise (fun a b => a.alert_type ≠ b.alert_type) (alertsToSend now m) := by
  unfold alertsToSend
  split <;> split <;> split <;> simp [List.pairwise_cons, List.pairwise_append]

lemma checkForAlerts_cooldown {now : Int} {m : MetricsInput} {st : List (String × Int)}
    {tl : Int} (hl : lookupLast st m.retailer = some tl) (hcd : now - tl < 300) :
    checkForAlerts now m st = ([], st) := by
  simp only [checkForAlerts, health_alert_cooldown, hl]
  rw [if_pos hcd]

lemma checkForAlerts_go {now : Int} {m : MetricsInput} {st : List (String × Int)}
    (h : lookupLast st m.retailer = none ∨
      ∃ tl, lookupLast st m.retailer = some tl ∧ ¬ now - tl < 300) :
    checkForAlerts now m st = (alertsToSend now m,
      if alertsToSend now m = [] then st else setLast st m.retailer now) := by
  rcases h with hl | ⟨tl, hl, hcd⟩
  · simp only [checkForAlerts, health_alert_cooldown, hl]
  · simp only [checkForAlerts, health_alert_cooldown, hl]
    rw [if_neg hcd]

lemma runMonitor_cons (s : MonitorStep) (rest : List MonitorStep)
    (st : List (String × Int)) :
    runMonitor (s :: rest) st =
      (checkForAlerts s.time s.metrics st).1 ++
        runMonitor rest (checkForAlerts s.time s.metrics st).2 := rfl

lemma runMonitor_lb : ∀ (steps : List MonitorStep) (st : List (String × Int))
    (r : String) (tl : Int), lookupLast st r = some tl →
    ∀ a ∈ runMonitor steps st, a.retailer = r → tl + 300 ≤ a.timestamp := by
  intro steps
  induction steps with
  | nil => intro st r tl _ a ha; cases ha
  | cons s rest ih =>
    intro st r tl hl a ha har
    rw [runMonitor_cons] at ha
    by_cases hr : s.metrics.retailer = r
    · subst hr
      by_cases hcd : s.time - tl < 300
      · rw [checkForAlerts_cooldown hl hcd] at ha
        simp only [List.nil_append] at ha
        exact ih st _ tl hl a ha har
      · rw [checkForAlerts_go (Or.inr ⟨tl, hl, hcd⟩)] at ha
        rcases List.mem_append.mp ha with hB | hrest
        · have hf := alertsToSend_fields s.time s.metrics a hB
          have := hf.2
          omega
        · by_cases hB : alertsToSend s.time s.metrics = []
          · rw [if_pos hB] at hrest
            exact ih st _ tl hl a hrest har
          · rw [if_neg hB] at hrest
            have hl3 := lookupLast_setLast_self st s.metrics.retailer s.time
            have := ih _ _ s.time hl3 a hrest har
            omega
    · cases hl0 : lookupLast st s.metrics.retailer with
      | some tl2 =>
        by_cases hcd : s.time - tl2 < 300
        · rw [checkForAlerts_cooldown hl0 hcd] at ha
          simp only [List.nil_append] at ha
          exact ih st r tl hl a ha har
        · rw [checkForAlerts_go (Or.inr ⟨tl2, hl0, hcd⟩)] at ha
          rcases List.mem_append.mp ha with hB | hrest
          · have hf := alertsToSend_fields s.time s.metrics a hB
            exact absurd (hf.1.symm.trans har) hr
          · by_cases hB : alertsToSend s.time s.metrics = []
            · rw [if_pos hB] at hrest
              exact ih st r tl hl a hrest har
            · rw [if_neg hB] at hrest
              have hl3 : lookupLast (setLast st s.metrics.retailer s.time) r = some tl := by
                rw [lookupLast_setLast_ne st s.metrics.retailer r s.time
                  (fun he => hr he.symm)]
                exact hl
              exact ih _ r tl hl3 a hrest har
      | none =>
        rw [checkForAlerts_go (Or.inl hl0)] at ha
        rcases List.mem_append.mp ha with hB | hrest
        · have hf := alertsToSend_fields s.time s.metrics a hB
          exact absurd (hf.1.symm.trans har) hr
        · by_cases hB : alertsToSend s.time s.metrics = []
          · rw [if_pos hB] at hrest
            exact ih st r tl hl a hrest har
          · rw [if_neg hB] at hrest
            have hl3 : lookupLast (setLast st s.metrics.retailer s.time) r = some tl := by
              rw [lookupLast_setLast_ne st s.metrics.retailer r s.time
                (fun he => hr he.symm)]
              exact hl
            exact ih _ r tl hl3 a hrest har

lemma runMonitor_pairwise (steps : List MonitorStep) : ∀ st : List (String × Int),
    List.Pairwise (fun a b => a.retailer = b.retailer ∧ a.alert_type = b.alert_type →
      a.timestamp + 300 ≤ b.timestamp) (runMonitor steps st) := by
  induction steps with
  | nil => intro st; exact List.Pairwise.nil
  | cons s rest ih =>
    intro st
    rw [runMonitor_cons]
    by_cases hgo : ∃ tl, lookupLast st s.metrics.retailer = some tl ∧ s.time - tl < 300
    · obtain ⟨tl, hl, hcd⟩ := hgo
      rw [checkForAlerts_cooldown hl hcd]
      exact ih st
    · have hgo2 : lookupLast st s.metrics.retailer = none ∨
          ∃ tl, lookupLast st s.metrics.retailer = some tl ∧ ¬ s.time - tl < 300 := by
        cases hl0 : lookupLast st s.metrics.retailer with
        | none => exact Or.inl rfl
        | some tl2 => exact Or.inr ⟨tl2, rfl, fun hc => hgo ⟨tl2, hl0, hc⟩⟩
      rw [checkForAlerts_go hgo2]
      by_cases hB : alertsToSend s.time s.metrics = []
      · rw [hB, if_pos rfl]
        exact ih st
      · rw [if_neg hB]
        rw [List.pairwise_append]
        refine ⟨?_, ih _, ?_⟩
        · exact (alertsToSend_pairwise s.time s.metrics).imp
            (fun hne hkey => absurd hkey.2 hne)
        · intro a haB b hbrest hkey
          obtain ⟨hret, htyp⟩ := hkey
          have hfa := alertsToSend_fields s.time s.metrics a haB
          have hbr : b.retailer = s.metrics.retailer := by rw [← hret]; exact hfa.1
          have hlb := runMonitor_lb rest (setLast st s.metrics.retailer s.time)
            s.metrics.retailer s.time (lookupLast_setLast_self st _ s.time) b hbrest hbr
          have := hfa.2
          omega

set_option maxRecDepth 4000 in
/-- C9 counterexample: the health monitor's alert cooldown is 300 seconds
(5 minutes), not 15 minutes: two Critical runs for the same source, 360
seconds apart, raise two `status_critical` alerts 360 seconds apart —
inside the claimed 15-minute window. -/
theorem health_alert_fifteen_minute_counterexample :
    runMonitor twoCriticalRuns [] =
      [⟨"nike", "status_critical", .critical, 0⟩,
       ⟨"nike", "status_critical", .critical, 360⟩] ∧
    (360 : Int) - 0 < 900 := by
  with_unfolding_all decide

/-- C9 (amended): `_check_for_alerts` raises alerts for a source on a
Critical/Down status or a `site_changes`/`rate_limiting` error pattern,
but only when no alert for the same source was raised within
`alert_cooldown = 300` seconds (5 minutes, not 15), with the last-alert
time keyed by source alone.  Consequently, over any sequence of
health-check runs and from any starting cooldown state, no two raised
alerts with the same (source, type) are ever timestamped less than 300
seconds apart. -/
theorem health_alert_spacing (steps : List MonitorStep) (st : List (String × Int)) :
    List.Pairwise (fun a b => a.retailer = b.retailer ∧ a.alert_type = b.alert_type →
      a.timestamp + 300 ≤ b.timestamp) (runMonitor steps st) :=
  runMonitor_pairwise steps st

end SneakerDropBot
